import Mathlib

/-!
Verification development for a research-query orchestrator.

The program pipeline: a search tool gathers candidate sources from an
arXiv provider and a Wikipedia provider, the orchestrator re-scores and
ranks them, generates a report and citations, computes a confidence
score, and records results in a history list.  External effects
(provider responses, LLM availability, wall-clock time, faults) are
modelled as explicit environment parameters; floating-point scores are
modelled as rationals.

Note: the search-tool module in the repository contains two full copies
of its definitions; the later definitions are the effective ones (they
shadow the earlier ones at import time), so this embedding follows the
second copy (per-provider budget `max_results // 4`, the shorter demo
content strings, and the Wikipedia loop without a disambiguation
branch).
-/

/-- A retrieved candidate document (dataclass `Source`). -/
structure Source where
  title : String
  url : String
  content : String
  relevance_score : ℚ
  source_type : String
  publish_date : Option String
deriving DecidableEq, Repr

/-- The output of one research run (dataclass `ResearchResult`).
`research_time` is wall-clock seconds, modelled abstractly. -/
structure ResearchResult where
  query : String
  report : String
  sources : List Source
  citations : List String
  confidence_score : ℚ
  research_time : ℚ
deriving DecidableEq

/-- `settings.DEFAULT_MAX_SOURCES` from `config/settings.py`. -/
def DEFAULT_MAX_SOURCES : Int := 7

/-- Python list slicing `l[:n]` for an `int` bound `n`: a non-negative
bound takes the first `n` elements; a negative bound drops the last
`|n|` elements (clamped at the empty list). -/
def pythonTake {α : Type} (n : Int) (l : List α) : List α :=
  if 0 ≤ n then l.take n.toNat else l.take ((l.length : Int) + n).toNat

/-! ## `src/tools/local_llm.py` -/

/-- Python `s.lower().split()`: lowercase, split on whitespace runs,
dropping empty fragments. -/
def pyWords (s : String) : List String :=
  (s.toLower.split (fun c => c.isWhitespace)).filter (fun w => w ≠ "")

/-- The keyword-overlap fallback branch of
`LocalLLM.evaluate_source_relevance` (used when the model backend is
unavailable or its answer cannot be parsed): word-set overlap ratio
clamped to 1, or 0.0 for a word-less query. -/
def evaluate_source_relevance_fallback (query content : String) : ℚ :=
  let query_words : Finset String := (pyWords query).toFinset
  let content_words : Finset String := (pyWords content).toFinset
  let overlap := (query_words ∩ content_words).card
  if query_words = ∅ then 0 else min ((overlap : ℚ) / query_words.card) 1

/-! ## `src/tools/local_search.py` (effective, second copy) -/

/-- `LocalSearchTool._get_demo_sources` (second copy): two fixed
placeholder sources derived from the query. -/
def _get_demo_sources (query : String) : List Source :=
  [ { title := "Introduction to " ++ query,
      url := "https://demo.example.com/intro",
      content := "This is an introductory overview of " ++ query ++
        ". This demo content shows what a real research source would look like.",
      relevance_score := 7/10,
      source_type := "web",
      publish_date := none },
    { title := "Academic Research on " ++ query,
      url := "https://demo.example.com/academic",
      content := "Academic research demonstrates that " ++ query ++
        " involves multiple complex factors and considerations.",
      relevance_score := 8/10,
      source_type := "academic",
      publish_date := none } ]

/-- Loop body of `LocalSearchTool._remove_duplicates`, threading the
`seen_urls` set (modelled as the list of urls seen so far). -/
def removeDuplicatesAux (seen : List String) : List Source → List Source
  | [] => []
  | s :: rest =>
    if s.url ∈ seen then removeDuplicatesAux seen rest
    else s :: removeDuplicatesAux (s.url :: seen) rest

/-- `LocalSearchTool._remove_duplicates`: keep the first occurrence of
each url. -/
def _remove_duplicates (sources : List Source) : List Source :=
  removeDuplicatesAux [] sources

/-- Environment of `LocalSearchTool.search`: which provider modules
imported successfully (`self.engines`), the enable flags from settings,
and the providers' responses as functions of query and requested
result-count budget (faults inside `_search_arxiv` / `_search_wikipedia`
are absorbed there into an empty or partial list, so a provider is just
a total function). -/
structure SearchEnv where
  arxiv_available : Bool
  wikipedia_available : Bool
  ENABLE_ARXIV : Bool
  ENABLE_WIKIPEDIA : Bool
  arxiv_results : String → Int → List Source
  wikipedia_results : String → Int → List Source

/-- `LocalSearchTool.search` (effective, second copy): each enabled and
available provider is asked for `max_results // 4` results; if nothing
was gathered and no engine is available, return demo placeholders;
otherwise deduplicate and truncate to `max_results`.  `//` is Python
floor division (`Int.fdiv`); `any(self.engines.values())` is
availability of arXiv or Wikipedia (the DuckDuckGo engine is always
`False`). -/
def LocalSearchTool_search (env : SearchEnv) (query : String) (max_results : Int) : List Source :=
  let arxiv_part :=
    if env.arxiv_available && env.ENABLE_ARXIV then
      env.arxiv_results query (Int.fdiv max_results 4)
    else []
  let all_sources := arxiv_part ++
    (if env.wikipedia_available && env.ENABLE_WIKIPEDIA then
      env.wikipedia_results query (Int.fdiv max_results 4)
    else [])
  if all_sources.isEmpty && !(env.arxiv_available || env.wikipedia_available) then
    _get_demo_sources query
  else
    pythonTake max_results (_remove_duplicates all_sources)

/-- `RateLimiter` state: the configured per-minute maximum and the list
of recorded request timestamps (seconds, as rationals). -/
structure RateLimiter where
  max_requests : Nat
  requests : List ℚ
deriving DecidableEq

/-- `RateLimiter.wait` called at time `now`: prune timestamps `t` with
`now - t ≥ 60`; if the remaining count reaches the maximum, sleep
`60 - (now - oldest)` when that is positive (reading the oldest element
raises `IndexError` on an empty list, modelled as `none`); finally
append `now` — the timestamp captured at entry, not after the sleep.
Returns the slept duration and the new state. -/
def RateLimiter.wait (rl : RateLimiter) (now : ℚ) : Option (ℚ × RateLimiter) :=
  let pruned := rl.requests.filter (fun t => now - t < 60)
  if rl.max_requests ≤ pruned.length then
    match pruned with
    | [] => none
    | oldest :: _ =>
      let sleep_time := 60 - (now - oldest)
      let slept := if 0 < sleep_time then sleep_time else 0
      some (slept, ⟨rl.max_requests, pruned ++ [now]⟩)
  else
    some (0, ⟨rl.max_requests, pruned ++ [now]⟩)

/-! ## `src/agent.py` -/

/-- Descending comparison on `relevance_score`, the key of
`sorted(sources, key=lambda s: s.relevance_score, reverse=True)`.
Python's sort is a stable mergesort and `reverse=True` keeps ties in
original order, matching `List.mergeSort` with this relation. -/
def sortDescRel (a b : Source) : Bool := decide (b.relevance_score ≤ a.relevance_score)

/-- `LocalResearchAgent._filter_best_sources`: stable sort by
`relevance_score` descending, then Python slice `[:max_sources]`. -/
def _filter_best_sources (sources : List Source) (max_sources : Int) : List Source :=
  pythonTake max_sources (sources.mergeSort sortDescRel)

/-- Fallback citation formats of `LocalResearchAgent._generate_citations`
(per `source_type`). -/
def fallbackCitation (s : Source) : String :=
  if s.source_type = "academic" then
    s.title ++ ". arXiv. Retrieved from " ++ s.url
  else if s.source_type = "encyclopedia" then
    s.title ++ ". Wikipedia. Retrieved from " ++ s.url
  else
    s.title ++ ". Retrieved from " ++ s.url

/-- One iteration of the citation loop, faults aside: try the LLM when
loaded (`none` models its inner exception, absorbed by falling through),
else use the per-type fallback format. -/
def citeOne (llm_loaded : Bool) (llmCite : Source → Option String) (s : Source) : String :=
  if llm_loaded then
    match llmCite s with
    | some c => c
    | none => fallbackCitation s
  else fallbackCitation s

/-- `LocalResearchAgent._generate_citations`: one citation per source in
order; `citeFault s = true` models an exception escaping the loop body
for source `s`, caught by the per-source handler which appends the
error placeholder and continues. -/
def _generate_citations (llm_loaded : Bool) (llmCite : Source → Option String)
    (citeFault : Source → Bool) (sources : List Source) : List String :=
  sources.map (fun s =>
    if citeFault s then "Citation error for: " ++ s.title
    else citeOne llm_loaded llmCite s)

/-- Sum of the relevance scores of a source list. -/
def sumScores (sources : List Source) : ℚ :=
  (sources.map (fun s => s.relevance_score)).sum

/-- The unclamped confidence expression of
`LocalResearchAgent._calculate_confidence` (the value of its local
variable `confidence` for a non-empty list): weighted sum of average
relevance, type diversity, source count, and capped academic bonus.
`len(set(...))` is the number of distinct source types, modelled by
`dedup`. -/
def confidenceRaw (sources : List Source) : ℚ :=
  let avg_relevance := sumScores sources / sources.length
  let source_types := ((sources.map (fun s => s.source_type)).dedup).length
  let diversity_score := min ((source_types : ℚ) / 3) 1
  let count_score := min ((sources.length : ℚ) / 5) 1
  let academic_count := (sources.filter (fun s => s.source_type = "academic")).length
  let academic_bonus := min ((academic_count : ℚ) / sources.length) (2/10)
  avg_relevance * (4/10) + diversity_score * (2/10) + count_score * (2/10) +
    academic_bonus * (2/10)

/-- `LocalResearchAgent._calculate_confidence`: 0.0 for an empty list,
otherwise the weighted sum clamped to at most 1.0. -/
def _calculate_confidence (sources : List Source) : ℚ :=
  if sources.isEmpty then 0 else min (confidenceRaw sources) 1

/-- `max_sources = max_sources or settings.DEFAULT_MAX_SOURCES` at the
top of `research`: `None` and `0` (both falsy) become the default; any
other integer is kept, including negative values. -/
def effective_max_sources (max_sources : Option Int) : Int :=
  match max_sources with
  | none => DEFAULT_MAX_SOURCES
  | some v => if v = 0 then DEFAULT_MAX_SOURCES else v

/-- Environment of `LocalResearchAgent.research`: the search tool's
response, the per-source enhancement of `_enhance_sources` (content
extension and relevance re-scoring, whose per-source faults are
absorbed in place), report generation, the LLM citation path, a
pipeline-fatal fault escaping to the top-level handler, and elapsed
wall-clock time. -/
structure AgentEnv where
  llm_loaded : Bool
  llmCite : Source → Option String
  citeFault : Source → Bool
  search : String → Int → List Source
  enhanceOne : String → Source → Source
  genReport : String → List Source → String
  fault : Bool
  faultMsg : String
  elapsed : ℚ

/-- `LocalResearchAgent._enhance_sources`: each source is enhanced in
place and re-appended, preserving order and length. -/
def _enhance_sources (env : AgentEnv) (query : String) (sources : List Source) : List Source :=
  sources.map (env.enhanceOne query)

/-- `LocalResearchAgent.research` as a function of the environment and
the current `research_history`, returning the result and the new
history.  The zero-sources short circuit and the top-level fault handler
both return without touching the history; only the success path appends
(line `self.research_history.append(result)`). -/
def research (env : AgentEnv) (history : List ResearchResult) (query : String)
    (max_sources : Option Int) : ResearchResult × List ResearchResult :=
  let ms := effective_max_sources max_sources
  if env.fault then
    (⟨query, "❌ Research failed due to error: " ++ env.faultMsg, [], [], 0, env.elapsed⟩, history)
  else
    let sources := env.search query ms
    if sources.isEmpty then
      (⟨query, "❌ No sources found for this query.", [], [], 0, env.elapsed⟩, history)
    else
      let best := _filter_best_sources (_enhance_sources env query sources) ms
      let result : ResearchResult :=
        ⟨query, env.genReport query best, best,
          _generate_citations env.llm_loaded env.llmCite env.citeFault best,
          _calculate_confidence best, env.elapsed⟩
      (result, history ++ [result])

/-! ## Helper lemmas -/

theorem sumScores_nonneg (sources : List Source)
    (h : ∀ s ∈ sources, 0 ≤ s.relevance_score) : 0 ≤ sumScores sources := by
  induction sources with
  | nil => simp [sumScores]
  | cons a t ih =>
    have ha := h a (List.mem_cons_self a t)
    have ht := ih (fun s hs => h s (List.mem_cons_of_mem a hs))
    simp only [sumScores, List.map_cons, List.sum_cons] at *
    linarith

theorem sumScores_le_length (sources : List Source)
    (h : ∀ s ∈ sources, s.relevance_score ≤ 1) :
    sumScores sources ≤ (sources.length : ℚ) := by
  induction sources with
  | nil => simp [sumScores]
  | cons a t ih =>
    have ha := h a (List.mem_cons_self a t)
    have ht := ih (fun s hs => h s (List.mem_cons_of_mem a hs))
    simp only [sumScores, List.map_cons, List.sum_cons, List.length_cons] at *
    push_cast
    linarith

theorem min_one_bounds (x : ℚ) (hx : 0 ≤ x) : 0 ≤ min x 1 ∧ min x 1 ≤ 1 :=
  ⟨le_min hx zero_le_one, min_le_right x 1⟩

/-- The unclamped confidence expression is bounded by `0.84 = 0.4 + 0.2 + 0.2
+ 0.2·0.2` whenever every relevance score lies in `[0, 1]`. -/
theorem confidenceRaw_bounds (sources : List Source) (hne : sources ≠ [])
    (hsc : ∀ s ∈ sources, 0 ≤ s.relevance_score ∧ s.relevance_score ≤ 1) :
    0 ≤ confidenceRaw sources ∧ confidenceRaw sources ≤ 84/100 := by
  have hn : 0 < (sources.length : ℚ) := by
    exact_mod_cast List.length_pos.mpr hne
  have havg0 : 0 ≤ sumScores sources / (sources.length : ℚ) :=
    div_nonneg (sumScores_nonneg sources (fun s hs => (hsc s hs).1)) hn.le
  have havg1 : sumScores sources / (sources.length : ℚ) ≤ 1 := by
    rw [div_le_one hn]
    exact sumScores_le_length sources (fun s hs => (hsc s hs).2)
  obtain ⟨hd0, hd1⟩ := min_one_bounds
    ((((sources.map (fun s => s.source_type)).dedup).length : ℚ) / 3) (by positivity)
  obtain ⟨hc0, hc1⟩ := min_one_bounds ((sources.length : ℚ) / 5) (by positivity)
  have hb0 : (0:ℚ) ≤ min
      (((sources.filter (fun s => s.source_type = "academic")).length : ℚ) / sources.length)
      (2/10) :=
    le_min (by positivity) (by norm_num)
  have hb1 : min
      (((sources.filter (fun s => s.source_type = "academic")).length : ℚ) / sources.length)
      (2/10) ≤ 2/10 := min_le_right _ _
  simp only [confidenceRaw]
  constructor <;> linarith

/-- C3: for a non-empty source list with scores in `[0, 1]`,
`_calculate_confidence` is exactly the clamped weighted sum
`min (0.4·avg + 0.2·min(types/3, 1) + 0.2·min(n/5, 1) +
0.2·min(academic/n, 0.2)) 1`, and lies in `[0, 1]`; on the empty list it
is `0`. -/
theorem C3_confidence_formula (sources : List Source) (hne : sources ≠ [])
    (hsc : ∀ s ∈ sources, 0 ≤ s.relevance_score ∧ s.relevance_score ≤ 1) :
    _calculate_confidence sources =
      min ((sumScores sources / sources.length) * (4/10) +
        (min ((((sources.map (fun s => s.source_type)).dedup).length : ℚ) / 3) 1) * (2/10) +
        (min ((sources.length : ℚ) / 5) 1) * (2/10) +
        (min (((sources.filter (fun s => s.source_type = "academic")).length : ℚ) /
          sources.length) (2/10)) * (2/10)) 1 ∧
    0 ≤ _calculate_confidence sources ∧ _calculate_confidence sources ≤ 1 ∧
    _calculate_confidence [] = 0 := by
  obtain ⟨hr0, hr84⟩ := confidenceRaw_bounds sources hne hsc
  have hform : _calculate_confidence sources = min (confidenceRaw sources) 1 := by
    cases sources with
    | nil => exact absurd rfl hne
    | cons a t => rfl
  refine ⟨?_, ?_, ?_, rfl⟩
  · rw [hform]; simp only [confidenceRaw]
  · rw [hform]; exact le_min (by linarith) zero_le_one
  · rw [hform]; exact min_le_right _ _

/-- C3 witness at the two concrete demo sources. -/
theorem C3_confidence_formula_witness :
    0 ≤ _calculate_confidence (_get_demo_sources "q") ∧
    _calculate_confidence (_get_demo_sources "q") ≤ 1 := by
  obtain ⟨-, h1, h2, -⟩ := C3_confidence_formula (_get_demo_sources "q")
    (by decide) (by with_unfolding_all decide)
  exact ⟨h1, h2⟩

/-- C10: under the same hypotheses the confidence is at most `0.84`, the
final clamp to `1.0` never takes effect (the returned value is the raw
weighted sum), and `1.0` is unreachable. -/
theorem C10_confidence_upper (sources : List Source) (hne : sources ≠ [])
    (hsc : ∀ s ∈ sources, 0 ≤ s.relevance_score ∧ s.relevance_score ≤ 1) :
    _calculate_confidence sources = confidenceRaw sources ∧
    _calculate_confidence sources ≤ 84/100 ∧
    _calculate_confidence sources < 1 := by
  obtain ⟨hr0, hr84⟩ := confidenceRaw_bounds sources hne hsc
  have hform : _calculate_confidence sources = min (confidenceRaw sources) 1 := by
    cases sources with
    | nil => exact absurd rfl hne
    | cons a t => rfl
  have hmin : min (confidenceRaw sources) 1 = confidenceRaw sources :=
    min_eq_left (by linarith)
  refine ⟨hform.trans hmin, ?_, ?_⟩ <;> rw [hform, hmin] <;> linarith

/-- C10 witness at a concrete all-academic singleton. -/
theorem C10_confidence_upper_witness :
    _calculate_confidence [⟨"t", "u", "c", 1, "academic", none⟩] ≤ 84/100 := by
  obtain ⟨-, h, -⟩ := C10_confidence_upper [⟨"t", "u", "c", 1, "academic", none⟩]
    (by decide) (by with_unfolding_all decide)
  exact h

/-- C7: `_generate_citations` yields exactly one citation per source in
the same order: the lengths agree, and the `i`-th citation is the `i`-th
source's citation — the per-source error placeholder
`"Citation error for: " ++ title` when a fault strikes that source, the
normal LLM-or-fallback citation otherwise. -/
theorem C7_citations_aligned (llm_loaded : Bool) (llmCite : Source → Option String)
    (citeFault : Source → Bool) (sources : List Source) :
    (_generate_citations llm_loaded llmCite citeFault sources).length = sources.length ∧
    ∀ i : Nat, (_generate_citations llm_loaded llmCite citeFault sources)[i]? =
      (sources[i]?).map (fun s =>
        if citeFault s then "Citation error for: " ++ s.title
        else citeOne llm_loaded llmCite s) := by
  refine ⟨by simp [_generate_citations], fun i => ?_⟩
  simp [_generate_citations]

/-- C8: the relevance-evaluation fallback returns `0` for a word-less
query, otherwise `min(|query_words ∩ content_words| / |query_words|, 1)`
over lowercase whitespace-tokenized word sets; in particular `1` on the
machine-learning example and `0` on the quantum/banana example. -/
theorem C8_relevance_fallback :
    (∀ query content : String, pyWords query = [] →
      evaluate_source_relevance_fallback query content = 0) ∧
    (∀ query content : String, pyWords query ≠ [] →
      evaluate_source_relevance_fallback query content =
        min ((((pyWords query).toFinset ∩ (pyWords content).toFinset).card : ℚ) /
          (pyWords query).toFinset.card) 1) ∧
    evaluate_source_relevance_fallback "machine learning"
      "machine learning is a field of study" = 1 ∧
    evaluate_source_relevance_fallback "quantum" "banana bread recipe" = 0 := by
  refine ⟨?_, ?_, by with_unfolding_all decide, by with_unfolding_all decide⟩
  · intro q c h
    simp [evaluate_source_relevance_fallback, h]
  · intro q c h
    have : (pyWords q).toFinset ≠ ∅ := by
      simpa [List.toFinset_eq_empty_iff] using h
    simp [evaluate_source_relevance_fallback, this]

/-- C8 witness: the word-less-query branch at the empty query. -/
theorem C8_relevance_fallback_witness :
    evaluate_source_relevance_fallback "" "banana" = 0 :=
  C8_relevance_fallback.1 "" "banana" (by with_unfolding_all decide)

/-- C4 (amended): `wait` prunes timestamps 60 seconds or older, sleeps
exactly `60 - (now - oldest_remaining)` (necessarily positive) when the
pruned count is at or above the maximum and nothing otherwise, and then
records the timestamp captured at entry — `now`, not the post-suspension
time. -/
theorem C4_rate_limiter (rl : RateLimiter) (now : ℚ) (hmax : 1 ≤ rl.max_requests) :
    ∃ slept : ℚ,
      rl.wait now = some (slept,
        ⟨rl.max_requests, rl.requests.filter (fun t => now - t < 60) ++ [now]⟩) ∧
      (rl.max_requests ≤ (rl.requests.filter (fun t => now - t < 60)).length →
        slept = 60 - (now - (rl.requests.filter (fun t => now - t < 60)).headI) ∧
        0 < slept) ∧
      ((rl.requests.filter (fun t => now - t < 60)).length < rl.max_requests →
        slept = 0) := by
  by_cases hle : rl.max_requests ≤ (rl.requests.filter (fun t => now - t < 60)).length
  · cases hp : rl.requests.filter (fun t => now - t < 60) with
    | nil => rw [hp] at hle; simp at hle; omega
    | cons oldest rest =>
      have holt : now - oldest < 60 := by
        have hmem : oldest ∈ rl.requests.filter (fun t => now - t < 60) := by
          rw [hp]; exact List.mem_cons_self _ _
        simpa using (List.mem_filter.mp hmem).2
      have hpos : 0 < 60 - (now - oldest) := by linarith
      rw [hp] at hle
      refine ⟨60 - (now - oldest), ?_, fun _ => ⟨?_, hpos⟩, fun hlt => ?_⟩
      · simp only [RateLimiter.wait, hp, if_pos hle, if_pos hpos]
      · rfl
      · omega
  · refine ⟨0, ?_, fun h => absurd h hle, fun _ => rfl⟩
    simp only [RateLimiter.wait, if_neg hle]

/-- C4 witness: at maximum 1 request per minute with a recorded request
at time 0, applied at `now = 30`. -/
theorem C4_rate_limiter_witness :
    ∃ slept : ℚ,
      RateLimiter.wait ⟨1, [0]⟩ 30 = some (slept,
        ⟨1, ([0] : List ℚ).filter (fun t => (30:ℚ) - t < 60) ++ [30]⟩) ∧
      (1 ≤ (([0] : List ℚ).filter (fun t => (30:ℚ) - t < 60)).length →
        slept = 60 - (30 - (([0] : List ℚ).filter (fun t => (30:ℚ) - t < 60)).headI) ∧
        0 < slept) ∧
      ((([0] : List ℚ).filter (fun t => (30:ℚ) - t < 60)).length < 1 → slept = 0) :=
  C4_rate_limiter ⟨1, [0]⟩ 30 (by norm_num)

/-- C4 counterexample to the claim as stated: the recorded timestamp is
the entry time 30, although the request only proceeds at time
30 + 30 = 60 after the mandated 30-second suspension. -/
theorem C4_rate_limiter_counterexample :
    RateLimiter.wait ⟨1, [0]⟩ 30 = some (30, ⟨1, [0, 30]⟩) ∧
    (⟨1, [0, 30]⟩ : RateLimiter) ≠ ⟨1, [0, 30 + 30]⟩ := by
  constructor
  · with_unfolding_all decide
  · with_unfolding_all decide

/-- C2 (amended), characterized path by path: on the top-level-fault
path and on the zero-sources short-circuit path the terminal result
(empty sources/citations, confidence 0) is returned with the history
unchanged — it is not appended; only the success path appends its result
to the history. -/
theorem C2_history_append (env : AgentEnv) (history : List ResearchResult)
    (query : String) (max_sources : Option Int) :
    (env.fault = true →
      (research env history query max_sources).2 = history ∧
      (research env history query max_sources).1.sources = [] ∧
      (research env history query max_sources).1.citations = [] ∧
      (research env history query max_sources).1.confidence_score = 0) ∧
    (env.fault = false →
      (env.search query (effective_max_sources max_sources)).isEmpty = true →
      (research env history query max_sources).2 = history ∧
      (research env history query max_sources).1.sources = [] ∧
      (research env history query max_sources).1.citations = [] ∧
      (research env history query max_sources).1.confidence_score = 0) ∧
    (env.fault = false →
      (env.search query (effective_max_sources max_sources)).isEmpty = false →
      (research env history query max_sources).2 =
        history ++ [(research env history query max_sources).1]) := by
  refine ⟨fun hf => ?_, fun hf he => ?_, fun hf he => ?_⟩
  · simp [research, hf]
  · simp [research, hf, he]
  · simp [research, hf, he]

/-- Environment hitting the zero-sources short circuit: no fault, but
the provider returns zero sources. -/
def envC2 : AgentEnv where
  llm_loaded := false
  llmCite := fun _ => none
  citeFault := fun _ => false
  search := fun _ _ => []
  enhanceOne := fun _ s => s
  genReport := fun _ _ => ""
  fault := false
  faultMsg := ""
  elapsed := 0

/-- Environment hitting the top-level fault handler: a pipeline-fatal
fault escapes although the provider has sources to offer. -/
def faultEnv : AgentEnv where
  llm_loaded := false
  llmCite := fun _ => none
  citeFault := fun _ => false
  search := fun _ _ => [⟨"t", "u", "c", 1/2, "web", none⟩]
  enhanceOne := fun _ s => s
  genReport := fun _ _ => ""
  fault := true
  faultMsg := "boom"
  elapsed := 0

/-- Environment taking the success path: no fault, one source found. -/
def successEnv : AgentEnv where
  llm_loaded := false
  llmCite := fun _ => none
  citeFault := fun _ => false
  search := fun _ _ => [⟨"t", "u", "c", 1/2, "web", none⟩]
  enhanceOne := fun _ s => s
  genReport := fun _ _ => ""
  fault := false
  faultMsg := ""
  elapsed := 0

/-- C2 (amended) witness: at concrete environments, the fault-path and
zero-sources terminal results leave the history empty, while the success
path appends its result. -/
theorem C2_history_append_witness :
    (research faultEnv [] "q" none).2 = [] ∧
    (research envC2 [] "q" none).2 = [] ∧
    (research successEnv [] "q" (some 3)).2 =
      [] ++ [(research successEnv [] "q" (some 3)).1] :=
  ⟨((C2_history_append faultEnv [] "q" none).1 rfl).1,
   ((C2_history_append envC2 [] "q" none).2.1 rfl rfl).1,
   (C2_history_append successEnv [] "q" (some 3)).2.2 rfl rfl⟩

/-- C2 counterexample to the claim as stated: both terminal results —
the zero-sources short circuit and the top-level fault — are returned
(marker report, empty sources/citations, confidence 0) while the history
remains `[]`: neither is appended. -/
theorem C2_history_counterexample :
    (research envC2 [] "q" none).1.report = "❌ No sources found for this query." ∧
    (research envC2 [] "q" none).1.sources = [] ∧
    (research envC2 [] "q" none).1.citations = [] ∧
    (research envC2 [] "q" none).1.confidence_score = 0 ∧
    (research envC2 [] "q" none).2 = [] ∧
    (research faultEnv [] "q" none).1.report =
      "❌ Research failed due to error: " ++ "boom" ∧
    (research faultEnv [] "q" none).1.sources = [] ∧
    (research faultEnv [] "q" none).1.citations = [] ∧
    (research faultEnv [] "q" none).1.confidence_score = 0 ∧
    (research faultEnv [] "q" none).2 = [] :=
  ⟨rfl, rfl, rfl, rfl, rfl, rfl, rfl, rfl, rfl, rfl⟩

/-- C9 (amended): `None` and `0` (Python-falsy) become the configured
default 7 — not a clamp to 1 — while any non-zero value, negative ones
included, is passed through; a negative bound then truncates via Python
negative-slice semantics, dropping the last `|v|` sources. -/
theorem C9_max_sources_passthrough (v : Int) (ss : List Source) :
    effective_max_sources none = DEFAULT_MAX_SOURCES ∧
    effective_max_sources (some 0) = DEFAULT_MAX_SOURCES ∧
    effective_max_sources (some v) = (if v = 0 then DEFAULT_MAX_SOURCES else v) ∧
    (v < 0 → (_filter_best_sources ss v).length = ss.length - (-v).toNat) := by
  refine ⟨rfl, rfl, rfl, fun hv => ?_⟩
  have hvne : ¬ (0 ≤ v) := by omega
  simp only [_filter_best_sources, pythonTake, if_neg hvne, List.length_take,
    List.length_mergeSort]
  omega

/-- C9 (amended) witness: slicing the two demo sources with `-1` keeps
one source. -/
theorem C9_max_sources_passthrough_witness :
    (_filter_best_sources (_get_demo_sources "q") (-1)).length =
      (_get_demo_sources "q").length - 1 := by
  have h := (C9_max_sources_passthrough (-1) (_get_demo_sources "q")).2.2.2 (by norm_num)
  simpa using h

/-- Environment for the C9 counterexample: a provider that returns as
many (identical) sources as requested, no faults, no LLM. -/
def envC9 : AgentEnv where
  llm_loaded := false
  llmCite := fun _ => none
  citeFault := fun _ => false
  search := fun _ n => List.replicate n.toNat ⟨"t", "u", "c", 1/2, "web", none⟩
  enhanceOne := fun _ s => s
  genReport := fun _ _ => ""
  fault := false
  faultMsg := ""
  elapsed := 0

/-- C9 counterexample to the claim as stated: calling research with
`max_sources = 0` uses the default budget 7 — the pipeline returns 7
sources, not the 1 that clamping to a safe minimum of 1 would give. -/
theorem C9_counterexample :
    (research envC9 [] "q" (some 0)).1.sources.length = 7 ∧ (7 : Nat) ≠ 1 := by
  constructor
  · with_unfolding_all decide
  · decide

/-- The descending relevance order is transitive. -/
theorem sortDescRel_trans : ∀ a b c : Source,
    sortDescRel a b → sortDescRel b c → sortDescRel a c := by
  intro a b c hab hbc
  simp only [sortDescRel, decide_eq_true_eq] at *
  linarith

/-- The descending relevance order is total. -/
theorem sortDescRel_total : ∀ a b : Source, sortDescRel a b || sortDescRel b a := by
  intro a b
  simp only [sortDescRel, Bool.or_eq_true, decide_eq_true_eq]
  exact le_total _ _

/-- Stability of the sort: elements of any fixed relevance score appear
in the sorted list exactly in their original relative order. -/
theorem mergeSort_filter_stable (l : List Source) (q : ℚ) :
    (l.mergeSort sortDescRel).filter (fun s => s.relevance_score = q) =
      l.filter (fun s => s.relevance_score = q) := by
  have hsub : List.Sublist (l.filter (fun s => decide (s.relevance_score = q))) l :=
    List.filter_sublist l
  have hpw : (l.filter (fun s => decide (s.relevance_score = q))).Pairwise
      (fun a b => sortDescRel a b) := by
    apply List.pairwise_of_forall_mem_list
    intro a ha b hb
    have ha' := (List.mem_filter.mp ha).2
    have hb' := (List.mem_filter.mp hb).2
    simp only [decide_eq_true_eq] at ha' hb'
    simp [sortDescRel, ha', hb']
  have h2 : List.Sublist (l.filter (fun s => decide (s.relevance_score = q)))
      (l.mergeSort sortDescRel) :=
    List.sublist_mergeSort sortDescRel_trans sortDescRel_total hpw hsub
  have h3 := h2.filter (fun s => decide (s.relevance_score = q))
  rw [List.filter_filter] at h3
  simp only [Bool.and_self] at h3
  have hperm : List.Perm
      ((l.mergeSort sortDescRel).filter (fun s => decide (s.relevance_score = q)))
      (l.filter (fun s => decide (s.relevance_score = q))) :=
    (List.mergeSort_perm l sortDescRel).filter _
  exact (h3.eq_of_length hperm.length_eq.symm).symm

/-- C6: `_filter_best_sources` stably sorts by relevance descending
(elements of equal score keep their original relative order) and
truncates: the result is the `max_sources`-prefix of the stable sort,
its scores are non-increasing, and its length is
`min (len sources) max_sources`. -/
theorem C6_filter_best (sources : List Source) (m : Int) (hm : 0 ≤ m) :
    (∀ q : ℚ, (sources.mergeSort sortDescRel).filter (fun s => s.relevance_score = q) =
      sources.filter (fun s => s.relevance_score = q)) ∧
    _filter_best_sources sources m = (sources.mergeSort sortDescRel).take m.toNat ∧
    (_filter_best_sources sources m).Pairwise
      (fun a b => b.relevance_score ≤ a.relevance_score) ∧
    (_filter_best_sources sources m).length = min sources.length m.toNat := by
  have htake : _filter_best_sources sources m =
      (sources.mergeSort sortDescRel).take m.toNat := by
    simp [_filter_best_sources, pythonTake, hm]
  refine ⟨fun q => mergeSort_filter_stable sources q, htake, ?_, ?_⟩
  · have hsorted := List.sorted_mergeSort sortDescRel_trans sortDescRel_total sources
    have hsorted' : (sources.mergeSort sortDescRel).Pairwise
        (fun a b => b.relevance_score ≤ a.relevance_score) := by
      refine hsorted.imp ?_
      intro a b h
      simpa [sortDescRel] using h
    rw [htake]
    exact List.Pairwise.sublist (List.take_sublist _ _) hsorted'
  · rw [htake]
    simp [List.length_take, Nat.min_comm]

/-- C6 witness at the two demo sources with bound 1. -/
theorem C6_filter_best_witness :
    (_filter_best_sources (_get_demo_sources "q") 1).length =
      min (_get_demo_sources "q").length (Int.toNat 1) :=
  (C6_filter_best (_get_demo_sources "q") 1 (by norm_num)).2.2.2

/-- Probe environment for the provider budget: both providers available
and enabled, each echoing the budget it was requested back in the
`relevance_score` field of a single source. -/
def budgetProbeEnv : SearchEnv where
  arxiv_available := true
  wikipedia_available := true
  ENABLE_ARXIV := true
  ENABLE_WIKIPEDIA := true
  arxiv_results := fun _ n => [⟨"A", "a", "c", (n : ℚ), "academic", none⟩]
  wikipedia_results := fun _ n => [⟨"W", "w", "c", (n : ℚ), "encyclopedia", none⟩]

/-- C1 (amended): with both providers available and enabled, `search`
requests `max_results // 4` — a quarter of the budget, not the even
`max_results // 2` half-split — from each provider, then deduplicates
the concatenation and truncates to `max_results`. -/
theorem C1_budget_split (env : SearchEnv) (query : String) (max_results : Int)
    (ha : env.arxiv_available = true) (hea : env.ENABLE_ARXIV = true)
    (hw : env.wikipedia_available = true) (hew : env.ENABLE_WIKIPEDIA = true) :
    LocalSearchTool_search env query max_results =
      pythonTake max_results (_remove_duplicates
        (env.arxiv_results query (Int.fdiv max_results 4) ++
         env.wikipedia_results query (Int.fdiv max_results 4))) := by
  simp [LocalSearchTool_search, ha, hea, hw, hew]

/-- C1 (amended) witness at the probe environment and budget 10. -/
theorem C1_budget_split_witness :
    LocalSearchTool_search budgetProbeEnv "q" 10 =
      pythonTake 10 (_remove_duplicates
        (budgetProbeEnv.arxiv_results "q" (Int.fdiv 10 4) ++
         budgetProbeEnv.wikipedia_results "q" (Int.fdiv 10 4))) :=
  C1_budget_split budgetProbeEnv "q" 10 rfl rfl rfl rfl

/-- C1 counterexample to the claim as stated: at `max_results = 10` each
provider is requested `10 // 4 = 2` results, not the even split
`10 // 2 = 5` the claim asserts. -/
theorem C1_counterexample :
    (LocalSearchTool_search budgetProbeEnv "q" 10).map (fun s => s.relevance_score) =
      [2, 2] ∧
    Int.fdiv 10 2 = 5 ∧ ((2 : ℚ)) ≠ ((5 : ℚ)) := by
  refine ⟨?_, by decide, ?_⟩
  · with_unfolding_all decide
  · with_unfolding_all decide

/-- `pythonTake` of the empty list is empty. -/
theorem pythonTake_nil {α : Type} (n : Int) : pythonTake n ([] : List α) = [] := by
  simp [pythonTake]

/-- C5 (amended): the demo-placeholder fallback activates exactly in the
no-engine-importable case — if neither provider module is available,
`search` returns the two placeholders; whereas as soon as one provider
module is available (even if disabled by settings), zero gathered
sources yield the empty list instead. -/
theorem C5_demo_fallback (env : SearchEnv) (query : String) (max_results : Int) :
    (env.arxiv_available = false → env.wikipedia_available = false →
      LocalSearchTool_search env query max_results = _get_demo_sources query) ∧
    ((env.arxiv_available || env.wikipedia_available) = true →
      ((env.arxiv_available && env.ENABLE_ARXIV) = true →
        env.arxiv_results query (Int.fdiv max_results 4) = []) →
      ((env.wikipedia_available && env.ENABLE_WIKIPEDIA) = true →
        env.wikipedia_results query (Int.fdiv max_results 4) = []) →
      LocalSearchTool_search env query max_results = []) := by
  constructor
  · intro h1 h2
    simp [LocalSearchTool_search, h1, h2]
  · intro hav hA hW
    by_cases hA' : (env.arxiv_available && env.ENABLE_ARXIV) = true
    · by_cases hW' : (env.wikipedia_available && env.ENABLE_WIKIPEDIA) = true
      · simp [LocalSearchTool_search, hav, hA', hW', hA hA', hW hW',
          _remove_duplicates, removeDuplicatesAux, pythonTake_nil]
      · simp [LocalSearchTool_search, hav, hA', hW', hA hA',
          _remove_duplicates, removeDuplicatesAux, pythonTake_nil]
    · by_cases hW' : (env.wikipedia_available && env.ENABLE_WIKIPEDIA) = true
      · simp [LocalSearchTool_search, hav, hA', hW', hW hW',
          _remove_duplicates, removeDuplicatesAux, pythonTake_nil]
      · simp [LocalSearchTool_search, hav, hA', hW',
          _remove_duplicates, removeDuplicatesAux, pythonTake_nil]

/-- C5 (amended) witness: with no provider module available the two demo
placeholders are returned. -/
def noEngineEnv : SearchEnv where
  arxiv_available := false
  wikipedia_available := false
  ENABLE_ARXIV := true
  ENABLE_WIKIPEDIA := true
  arxiv_results := fun _ _ => []
  wikipedia_results := fun _ _ => []

/-- C5 (amended) witness: the all-unavailable case falls back to the
demo placeholders. -/
theorem C5_demo_fallback_witness :
    LocalSearchTool_search noEngineEnv "q" 10 = _get_demo_sources "q" :=
  (C5_demo_fallback noEngineEnv "q" 10).1 rfl rfl

/-- Environment with the arXiv module importable but disabled by
settings, and Wikipedia unavailable: every provider is disabled or
unavailable. -/
def disabledEnv : SearchEnv where
  arxiv_available := true
  wikipedia_available := false
  ENABLE_ARXIV := false
  ENABLE_WIKIPEDIA := true
  arxiv_results := fun _ _ => []
  wikipedia_results := fun _ _ => []

/-- C5 counterexample to the claim as stated: every provider is disabled
or unavailable and zero sources are gathered, yet `search` returns the
empty list, not the placeholder pair — the fallback tests module
availability only, not the enable flags. -/
theorem C5_counterexample :
    (disabledEnv.arxiv_available && disabledEnv.ENABLE_ARXIV) = false ∧
    (disabledEnv.wikipedia_available && disabledEnv.ENABLE_WIKIPEDIA) = false ∧
    LocalSearchTool_search disabledEnv "q" 10 = [] ∧
    LocalSearchTool_search disabledEnv "q" 10 ≠ _get_demo_sources "q" := by
  refine ⟨rfl, rfl, ?_, ?_⟩
  · with_unfolding_all decide
  · with_unfolding_all decide
